import Mathlib

/-!
Verification of the jumia-api-scraping repository core: natural-key upsert
into the canonical store (src/main.ts), the quota middleware and per-plan
cache keys and projections of the read API (src/api.ts and its iterations),
the cache-aside helper, price parsing, price-range bound validation and the
administrative insert path.

Conventions of the embedding:
- MongoDB `updateOne` with `$set`/`$setOnInsert` and `upsert: true`, filtered
  on the unique `url` index, is modelled on a `List StoredRecord` store;
  the unique index guarantees at most one match, so updating every matching
  record agrees with updating the single matching one.
- Redis is modelled as an association list; the handle is `Option`-valued
  because the source constructs it only when REDIS_URL is set and nulls it
  on backend errors.
- JavaScript truthiness on strings (`if (cached)`, `if (!id)`) is modelled
  by an explicit emptiness test; `Number(x)` applied to a request parameter
  is modelled at the granularity the handlers distinguish: missing,
  non-numeric (NaN), or an integer value.
- Response objects built by conditional spread are modelled as ordered
  association lists of (field name, value) pairs, so field presence is a
  statement about the list of first components.
-/

/-! ## Canonical store and ingestion upsert (src/main.ts lines 54-65) -/

/-- A draft record produced by one harvest of a listing page: the scraper
assigns a fresh `id` and `createdAt` to every draft before upserting
(src/main.ts lines 48-52). -/
structure Draft where
  url : String
  id : String
  title : String
  price : String
  image : String
  sourcePage : String
  createdAt : Nat
  deriving Repr, DecidableEq

/-- A record held by the canonical store, keyed by the natural key `url`
(unique index in the product schema, src/main.ts line 22). -/
structure StoredRecord where
  url : String
  id : String
  title : String
  price : String
  image : String
  sourcePage : String
  createdAt : Nat
  deriving Repr, DecidableEq

/-- The `$set` part of the upsert: overwrite the mutable fields
(title, price, image, sourcePage) and keep `url`, `id`, `createdAt`. -/
def setMutable (r : StoredRecord) (d : Draft) : StoredRecord :=
  { r with title := d.title, price := d.price, image := d.image,
           sourcePage := d.sourcePage }

/-- The record inserted when no document matches the filter: `url` from the
filter, mutable fields from `$set`, `id` and `createdAt` from `$setOnInsert`. -/
def freshRecord (d : Draft) : StoredRecord :=
  { url := d.url, id := d.id, title := d.title, price := d.price,
    image := d.image, sourcePage := d.sourcePage, createdAt := d.createdAt }

/-- `Product.updateOne({url}, {$set: mutables, $setOnInsert: {id, createdAt}},
{upsert: true})` from src/main.ts lines 57-62: update the matching record in
place if one exists, otherwise append a fresh record. -/
def upsertByUrl (store : List StoredRecord) (d : Draft) : List StoredRecord :=
  if store.any (fun r => r.url = d.url) then
    store.map (fun r => if r.url = d.url then setMutable r d else r)
  else
    store ++ [freshRecord d]

/-- The records the store holds under natural key `k`. -/
def recordsFor (k : String) (store : List StoredRecord) : List StoredRecord :=
  store.filter (fun r => r.url = k)

/-- Last element of `d :: ds`, the final draft of an ingestion sequence. -/
def lastDraft (d : Draft) : List Draft → Draft
  | [] => d
  | x :: xs => lastDraft x xs

/-! ## Price parsing (part_003 lines 76-77) -/

/-- Numeric value of a decimal digit character. -/
def digitVal (c : Char) : Nat := c.toNat - 48

/-- JavaScript `Number()` applied to a string of decimal digits, with
`Number('') = 0`: fold the digits most-significant first. -/
def natOfDigitString (l : List Char) : Nat :=
  l.foldl (fun a c => 10 * a + digitVal c) 0

/-- `price.replace(/[^\d]/g, '')`: delete every non-digit character. -/
def stripNonDigits (s : String) : List Char :=
  s.data.filter Char.isDigit

/-- `parsePrice` from part_003 lines 76-77:
`Number(price.replace(/[^\d]/g, ''))`. -/
def parsePrice (s : String) : Nat :=
  natOfDigitString (stripNonDigits s)

/-- Modelled from the spec: the number formed by deleting every non-digit
character of the string, read as a base-10 numeral (least-significant digit
last), 0 when no digit remains. Stated with Mathlib's `Nat.ofDigits` so it is
independent of the accumulator recursion used by `parsePrice`. -/
def numericPriceSpec (s : String) : Nat :=
  Nat.ofDigits 10 (((s.data.filter Char.isDigit).map digitVal).reverse)

/-! ## Per-plan projection (part_003 lines 394-400 and 105-121,
src/api.ts lines 103-108) -/

/-- The product document shape consumed by the read API's projections. -/
structure ProductDoc where
  id : String
  title : String
  price : String
  image : String
  url : String
  category : String
  sourcePage : String
  deriving Repr, DecidableEq

/-- `transformProduct` from part_003 lines 394-400 (same shape as the inline
projections of src/api.ts lines 103-108): `{id, title}`, spread the PRO
fields when the plan is not BASIC, spread `sourcePage` when the plan is MEGA,
and always attach the `plan` field. The object is modelled as the ordered
list of (field, value) pairs the spreads produce. -/
def transformProduct (p : ProductDoc) (plan : String) : List (String × String) :=
  [("id", p.id), ("title", p.title)]
    ++ (if plan ≠ "BASIC" then
          [("price", p.price), ("image", p.image), ("url", p.url),
           ("category", p.category)]
        else [])
    ++ (if plan = "MEGA" then [("sourcePage", p.sourcePage)] else [])
    ++ [("plan", plan)]

/-- `transformProduct` from part_003 lines 105-121: BASIC gets `{id, title}`,
every other plan value falls into the default branch marked `PRO (DEFAULT)`
and gets `{id, title, image, url, category}`. -/
def transformProductEarly (p : ProductDoc) (plan : String) : List (String × String) :=
  if plan = "BASIC" then
    [("id", p.id), ("title", p.title)]
  else
    [("id", p.id), ("title", p.title), ("image", p.image), ("url", p.url),
     ("category", p.category)]

/-- Field names present in a projected object. -/
def fieldsOf (obj : List (String × String)) : List String :=
  obj.map Prod.fst

/-! ## Cache keys (src/api.ts lines 95, 123, 150; part_003 lines 406, 430,
455, 486) -/

/-- Template literal of src/api.ts line 95 for the list endpoint. -/
def cacheKeyList (plan : String) : String :=
  "produits:list:" ++ plan

/-- Template literal of src/api.ts line 123 and part_003 line 430 for the
detail endpoint. -/
def cacheKeyDetail (id plan : String) : String :=
  "produit:" ++ id ++ ":" ++ plan

/-- Template literal of src/api.ts line 150 for the search endpoint. -/
def cacheKeySearchApi (name plan : String) : String :=
  "produit:search:" ++ name ++ ":" ++ plan

/-- Template literal of part_003 line 406 for the latest-list endpoint. -/
def cacheKeyLatest (plan : String) : String :=
  "latest:" ++ plan

/-- Template literal of part_003 line 455 for the search endpoint. -/
def cacheKeySearch (name plan : String) : String :=
  "search:" ++ name ++ ":" ++ plan

/-- Template literal of part_003 line 486 for the price-range endpoint. -/
def cacheKeyPriceRange (mn mx : Int) (plan : String) : String :=
  "price-range:" ++ toString mn ++ "-" ++ toString mx ++ ":" ++ plan

/-! ## Cache-aside helper (part_003 lines 43-53 and 79-88) -/

/-- The Redis backend as the cache sees it: entries of key, serialized
payload and the TTL they were written with. -/
structure CacheBackend where
  entries : List (String × String × Nat)
  deriving Repr, DecidableEq

/-- `redis.get(key)` on the backend: first entry for the key, if any. -/
def rget (b : CacheBackend) (k : String) : Option String :=
  (b.entries.find? (fun e => e.1 = k)).map (fun e => e.2.1)

/-- `redis.setex(key, ttl, value)`. -/
def rsetex (b : CacheBackend) (k : String) (ttl : Nat) (v : String) : CacheBackend :=
  ⟨(k, v, ttl) :: b.entries⟩

/-- Part_003 lines 43-53: the handle is constructed only when REDIS_URL is
set, and every backend error event nulls it (`redis.on('error', () =>
(redis = null))`), so an unreachable or erroring backend is observed by the
cache helper as an absent handle. -/
def onBackendError (_ : Option CacheBackend) : Option CacheBackend := none

/-- Outcome of one `cache(key, fn, ttl)` call: the value returned to the
route, the backend state afterwards, and whether `fn` was invoked. -/
structure CacheResult where
  value : String
  backend : Option CacheBackend
  computed : Bool
  deriving Repr, DecidableEq

/-- The `cache` helper of part_003 lines 79-88: with no handle, return
`fn()`; on a truthy cached string, return it without invoking `fn`; otherwise
invoke `fn`, `setex` its serialization under the key with the TTL, and return
it. `fnVal` stands for the (serialized) result `fn` would compute. -/
def cacheRead (redis : Option CacheBackend) (key : String) (fnVal : String)
    (ttl : Nat) : CacheResult :=
  match redis with
  | none => ⟨fnVal, none, true⟩
  | some b =>
    match rget b key with
    | some v =>
        if v = "" then ⟨fnVal, some (rsetex b key ttl fnVal), true⟩
        else ⟨v, some b, false⟩
    | none => ⟨fnVal, some (rsetex b key ttl fnVal), true⟩

/-! ## Quota middleware (src/api.ts lines 45-84) -/

/-- Static credential-to-tier mapping of src/api.ts lines 52-57. -/
def planMapping : String → Option String
  | "key_basic" => some "BASIC"
  | "key_pro" => some "PRO"
  | "key_ultra" => some "ULTRA"
  | "key_mega" => some "MEGA"
  | _ => none

/-- Per-tier request ceilings of src/api.ts lines 64-69. -/
def planQuota : String → Nat
  | "BASIC" => 500
  | "PRO" => 5000
  | "ULTRA" => 30000
  | "MEGA" => 100000
  | _ => 0

/-- The Redis counter store: `quota:<key>` mapped to its count. -/
def QuotaStore := List (String × Nat)

/-- `redis.get` on the counter store. -/
def qget (st : QuotaStore) (k : String) : Option Nat :=
  (st.find? (fun e => e.1 = k)).map (fun e => e.2)

/-- `redis.incr`: increment the counter, creating it at 1 when absent. -/
def qincr (st : QuotaStore) (k : String) : QuotaStore :=
  match st with
  | [] => [(k, 1)]
  | e :: rest => if e.1 = k then (e.1, e.2 + 1) :: rest else e :: qincr rest k

/-- Result of the middleware for one request. -/
inductive MwOutcome where
  | unauthorized
  | invalidKey
  | quotaExceeded (plan : String)
  | admitted (plan : String)
  deriving Repr, DecidableEq

/-- The quota middleware of src/api.ts lines 45-84, run serially: reject a
missing or empty credential header with 401, an unrecognized credential with
403; then, only when a Redis handle exists, read the counter, deny with 429
when it has reached the tier's ceiling, and otherwise increment it. With no
handle the request is admitted with no counter activity. Returns the outcome
and the counter store afterwards. -/
def quotaMiddleware (redis : Option QuotaStore) (header : Option String) :
    MwOutcome × Option QuotaStore :=
  match header with
  | none => (.unauthorized, redis)
  | some key =>
    if key = "" then (.unauthorized, redis)
    else
      match planMapping key with
      | none => (.invalidKey, redis)
      | some plan =>
        match redis with
        | none => (.admitted plan, none)
        | some st =>
          let count := (qget st ("quota:" ++ key)).getD 0
          if planQuota plan ≤ count then (.quotaExceeded plan, some st)
          else (.admitted plan, some (qincr st ("quota:" ++ key)))

/-! ## Interleaved quota check and increment (src/api.ts lines 71-81) -/

/-- Progress of one in-flight request through the quota middleware for a
fixed recognized credential: not started; `redis.get` completed with the
observed count; finished admitted or denied. -/
inductive ReqPhase where
  | start
  | readDone (observed : Nat)
  | finished (admitted : Bool)
  deriving Repr, DecidableEq

/-- Shared counter plus the phases of the concurrent requests of one
credential. -/
structure QuotaSystem where
  counter : Nat
  reqs : List ReqPhase
  deriving Repr, DecidableEq

/-- Advance request `i` by one atomic step, against ceiling `c`: a request
at `start` performs the `redis.get` and records the counter it observed; a
request that has read performs the comparison of line 75 on its observed
value and either finishes denied (429) or performs the `redis.incr` of line
79 and finishes admitted. The comparison and the increment are taken as one
step here, which is more atomicity than the two separate awaits of the
source grant. -/
def stepQuota (c : Nat) (s : QuotaSystem) (i : Nat) : QuotaSystem :=
  match s.reqs[i]? with
  | none => s
  | some .start => { s with reqs := s.reqs.set i (.readDone s.counter) }
  | some (.readDone obs) =>
      if c ≤ obs then { s with reqs := s.reqs.set i (.finished false) }
      else { counter := s.counter + 1, reqs := s.reqs.set i (.finished true) }
  | some (.finished _) => s

/-- Run a schedule: the list of request indices, in the order their next
step is interleaved. -/
def runQuota (c : Nat) (s : QuotaSystem) (sched : List Nat) : QuotaSystem :=
  sched.foldl (stepQuota c) s

/-! ## Price-range bound handling (part_001 lines 329-349,
part_003 lines 193-210) -/

/-- A request query parameter at the granularity the handlers distinguish:
absent (`Number(undefined)` is NaN), a non-empty non-numeric string
(`Number(s)` is NaN), or a numeric string with integer value. -/
inductive QParam where
  | missing
  | nonNumeric (s : String)
  | num (n : Int)
  deriving Repr, DecidableEq

/-- `Number(req.query.x)` as in part_001 lines 332-333: NaN is `none`. -/
def jsNumber : QParam → Option Int
  | .missing => none
  | .nonNumeric _ => none
  | .num n => some n

/-- `Number(req.query.x || d)` as in part_003 lines 195-196: an absent
parameter is replaced by the default before conversion; a non-numeric string
is truthy and still converts to NaN. -/
def jsNumberDefaulted (p : QParam) (d : Int) : Option Int :=
  match p with
  | .missing => some d
  | .nonNumeric _ => none
  | .num n => some n

/-- Outcome of a price-range request: HTTP status, whether a store query was
executed, and the bounds the query was filtered on (`none` components stand
for NaN bounds). -/
structure RangeOutcome where
  status : Nat
  queryExecuted : Bool
  queryMin : Option Int
  queryMax : Option Int
  deriving Repr, DecidableEq

/-- The validating price-range handler of part_001 lines 329-349 (same
check as part_003 lines 477-505): `if (isNaN(min) || isNaN(max) || min < 0
|| max < min)` respond 400 before any store access, otherwise run the
`priceNumber: {$gte: min, $lte: max}` query. -/
def priceRangeValidated (minP maxP : QParam) : RangeOutcome :=
  match jsNumber minP, jsNumber maxP with
  | some mn, some mx =>
      if mn < 0 ∨ mx < mn then ⟨400, false, none, none⟩
      else ⟨200, true, some mn, some mx⟩
  | _, _ => ⟨400, false, none, none⟩

/-- The defaulted-bounds price-range handler of part_003 lines 193-210:
`min = Number(req.query.min || 0)`, `max = Number(req.query.max || 999999)`,
no validation of any kind; the store query always runs with whatever bounds
result. -/
def priceRangeDefaulted (minP maxP : QParam) : RangeOutcome :=
  ⟨200, true, jsNumberDefaulted minP 0, jsNumberDefaulted maxP 999999⟩

/-! ## Administrative insert (part_003 lines 129-156, part_005 lines
100-114) -/

/-- Body of a POST /produit request; `none` components are absent fields. -/
structure AdminBody where
  id : Option String
  title : Option String
  price : Option String
  image : Option String
  url : Option String
  category : Option String
  deriving Repr, DecidableEq

/-- JavaScript falsiness of an optional string field: absent or empty. -/
def falsyField : Option String → Bool
  | none => true
  | some s => s = ""

/-- Outcome of the admin insert: HTTP status, and the body whose fields were
written through `updateOne({id}, {$set: ...}, {upsert: true})` when a store
write happened. -/
structure AdminOutcome where
  status : Nat
  written : Option AdminBody
  deriving Repr, DecidableEq

/-- The POST /produit handler of part_003 lines 129-156: 401 on a wrong
`x-admin-key`, then `if (!id || !title)` respond 400 before any store
access, otherwise upsert keyed by `id` and respond 200. -/
def postProduit (adminKeyOk : Bool) (b : AdminBody) : AdminOutcome :=
  if adminKeyOk = false then ⟨401, none⟩
  else if falsyField b.id ∨ falsyField b.title then ⟨400, none⟩
  else ⟨200, some b⟩

/-! ## Theorems -/

/-- Folding digits most-significant first computes the base-10 numeral of
the reversed digit list. -/
theorem foldl_digits_eq_ofDigits (l : List Char) (a : Nat) :
    l.foldl (fun a c => 10 * a + digitVal c) a
      = Nat.ofDigits 10 ((l.map digitVal).reverse) + a * 10 ^ l.length := by
  induction l generalizing a with
  | nil => simp
  | cons c t ih =>
    simp only [List.foldl_cons, List.map_cons, List.reverse_cons, List.length_cons]
    rw [ih, Nat.ofDigits_append, Nat.ofDigits_singleton]
    simp only [List.length_reverse, List.length_map, pow_succ]
    ring

/-- Claim C7: for every display-price string `s`, `parsePrice s` equals the
number formed by deleting every non-digit character of `s` and reading the
remaining digits as a base-10 numeral; in particular
`parsePrice "1,299 MAD" = 1299` and a digit-free string such as `"free"`
yields 0. -/
theorem parsePrice_strips_non_digits :
    (∀ s : String, parsePrice s = numericPriceSpec s)
  ∧ parsePrice "1,299 MAD" = 1299 ∧ parsePrice "free" = 0 := by
  refine ⟨fun s => ?_, by decide, by decide⟩
  unfold parsePrice numericPriceSpec natOfDigitString stripNonDigits
  rw [foldl_digits_eq_ofDigits]
  simp

/-- Claim C1: the check-then-increment quota middleware races. From a BASIC
credential whose counter stands at 499 of the 500 ceiling, two concurrent
requests scheduled read, read, increment, increment are both admitted and
leave the counter at 501, strictly above the ceiling — the claimed
denial-once-at-ceiling and the counter bound both fail on this interleaving. -/
theorem quota_race_overruns_ceiling :
    runQuota (planQuota "BASIC")
        ⟨planQuota "BASIC" - 1, [.start, .start]⟩ [0, 1, 0, 1]
      = ⟨planQuota "BASIC" + 1, [.finished true, .finished true]⟩
  ∧ planQuota "BASIC" < planQuota "BASIC" + 1 := by decide

/-- Claim C5 counterexample: the BASIC projection of a concrete record does
not consist of exactly the fields id and title — the code also attaches the
plan field. -/
theorem transformProduct_basic_has_plan_field :
    ¬ (fieldsOf (transformProduct ⟨"p1", "t1", "99", "img", "u", "cat", "sp"⟩ "BASIC")
        = ["id", "title"]) := by decide

/-- Claim C5 (amended): for every record, the BASIC projection carries
exactly the fields id, title and plan, and never price, image, category or
sourcePage; PRO and ULTRA additionally carry price, image, url and category;
MEGA additionally carries sourcePage. -/
theorem transformProduct_fields_by_plan (p : ProductDoc) :
    fieldsOf (transformProduct p "BASIC") = ["id", "title", "plan"]
  ∧ "price" ∉ fieldsOf (transformProduct p "BASIC")
  ∧ "image" ∉ fieldsOf (transformProduct p "BASIC")
  ∧ "category" ∉ fieldsOf (transformProduct p "BASIC")
  ∧ "sourcePage" ∉ fieldsOf (transformProduct p "BASIC")
  ∧ fieldsOf (transformProduct p "PRO")
      = ["id", "title", "price", "image", "url", "category", "plan"]
  ∧ fieldsOf (transformProduct p "ULTRA")
      = ["id", "title", "price", "image", "url", "category", "plan"]
  ∧ fieldsOf (transformProduct p "MEGA")
      = ["id", "title", "price", "image", "url", "category", "sourcePage", "plan"] := by
  have hb : fieldsOf (transformProduct p "BASIC") = ["id", "title", "plan"] := rfl
  refine ⟨rfl, ?_, ?_, ?_, ?_, rfl, rfl, rfl⟩ <;> rw [hb] <;> decide

/-- Claim C6 counterexample: an unrecognized tier value is not projected
like BASIC — on a concrete record the unknown-tier projection differs from
the BASIC projection, because the default branch is the PRO view. -/
theorem transformProductEarly_unknown_tier_not_basic :
    transformProductEarly ⟨"p1", "t1", "99", "img", "u", "cat", "sp"⟩ "ENTERPRISE"
      ≠ transformProductEarly ⟨"p1", "t1", "99", "img", "u", "cat", "sp"⟩ "BASIC" := by
  decide

/-- Claim C6 (amended): an unrecognized tier falls into the default branch
and is treated as PRO, the more-privileged default, not as BASIC: part_003
line 105's projection returns exactly the PRO view, and the spread-based
projection emits the PRO field set. The projections are total pure
functions over all records and tier strings by construction. -/
theorem unknown_tier_defaults_to_pro (p : ProductDoc) (plan : String)
    (h1 : plan ≠ "BASIC") (h2 : plan ≠ "MEGA") :
    transformProductEarly p plan = transformProductEarly p "PRO"
  ∧ fieldsOf (transformProduct p plan) = fieldsOf (transformProduct p "PRO") := by
  constructor
  · unfold transformProductEarly
    rw [if_neg h1, if_neg (by decide : ¬ ("PRO" : String) = "BASIC")]
  · unfold transformProduct fieldsOf
    rw [if_pos h1, if_neg h2, if_pos (by decide : ("PRO" : String) ≠ "BASIC"),
      if_neg (by decide : ¬ ("PRO" : String) = "MEGA")]
    simp

/-- Witness for the amended C6 theorem at the unknown tier ENTERPRISE. -/
theorem unknown_tier_defaults_to_pro_w :
    (("ENTERPRISE" : String) ≠ "BASIC" ∧ ("ENTERPRISE" : String) ≠ "MEGA")
  ∧ (transformProductEarly ⟨"p1", "t1", "99", "img", "u", "cat", "sp"⟩ "ENTERPRISE"
      = transformProductEarly ⟨"p1", "t1", "99", "img", "u", "cat", "sp"⟩ "PRO"
    ∧ fieldsOf (transformProduct ⟨"p1", "t1", "99", "img", "u", "cat", "sp"⟩ "ENTERPRISE")
      = fieldsOf (transformProduct ⟨"p1", "t1", "99", "img", "u", "cat", "sp"⟩ "PRO")) :=
  ⟨⟨by decide, by decide⟩,
   unknown_tier_defaults_to_pro _ _ (by decide) (by decide)⟩

/-- Claim C8 counterexample: the defaulted-bounds price-range handler of
part_003 lines 193-210 does not validate. At the claim's own example
min=2000, max=1000 it answers 200, not 400, and it executes the store query
with the inverted bounds. -/
theorem price_range_defaulted_skips_validation :
    priceRangeDefaulted (.num 2000) (.num 1000) = ⟨200, true, some 2000, some 1000⟩
  ∧ (priceRangeDefaulted (.num 2000) (.num 1000)).status ≠ 400
  ∧ (priceRangeDefaulted (.num 2000) (.num 1000)).queryExecuted = true := by
  refine ⟨rfl, by decide, rfl⟩

/-- Claim C8 (amended): the bounds-validating price-range handler (part_001
lines 329-349, part_003 lines 477-505) answers 400 and executes no store
query whenever min or max is missing or non-numeric, or max is below min;
the defaulted-bounds variant instead substitutes 0 and 999999 for absent
bounds and never rejects. -/
theorem price_range_validated_rejects_bad_bounds (minP maxP : QParam)
    (h : jsNumber minP = none ∨ jsNumber maxP = none ∨
      (∃ mn mx, jsNumber minP = some mn ∧ jsNumber maxP = some mx ∧ mx < mn)) :
    priceRangeValidated minP maxP = ⟨400, false, none, none⟩ := by
  unfold priceRangeValidated
  rcases h with h | h | ⟨mn, mx, h1, h2, h3⟩
  · rw [h]
  · rw [h]
    cases jsNumber minP <;> rfl
  · rw [h1, h2]
    exact if_pos (Or.inr h3)

/-- Witness for the amended C8 theorem at min=2000, max=1000. -/
theorem price_range_validated_rejects_bad_bounds_w :
    (jsNumber (.num 2000) = none ∨ jsNumber (.num 1000) = none ∨
      (∃ mn mx, jsNumber (.num 2000) = some mn ∧ jsNumber (.num 1000) = some mx ∧ mx < mn))
  ∧ priceRangeValidated (.num 2000) (.num 1000) = ⟨400, false, none, none⟩ :=
  ⟨Or.inr (Or.inr ⟨2000, 1000, rfl, rfl, by norm_num⟩),
   price_range_validated_rejects_bad_bounds _ _
     (Or.inr (Or.inr ⟨2000, 1000, rfl, rfl, by norm_num⟩))⟩

/-- Claim C9 counterexample: the administrative insert requires id and
title, not the natural key. A body carrying id and title but no url (the
natural key) is accepted with 200 and its fields are written to the store,
so a draft lacking a natural key is upserted through the administrative
path. -/
theorem post_produit_accepts_missing_natural_key :
    (postProduit true ⟨some "x", some "t", none, none, none, none⟩).status = 200
  ∧ (postProduit true ⟨some "x", some "t", none, none, none, none⟩).written
      = some ⟨some "x", some "t", none, none, none, none⟩
  ∧ (⟨some "x", some "t", none, none, none, none⟩ : AdminBody).url = none := by
  refine ⟨rfl, rfl, rfl⟩

/-- Claim C9 (amended): with a valid admin key, the administrative insert
rejects with 400 before any store write exactly the bodies whose id or
title is missing or empty; the natural key (url) is not required, so url-less
drafts can be upserted. -/
theorem post_produit_validates_id_and_title (b : AdminBody)
    (h : falsyField b.id = true ∨ falsyField b.title = true) :
    postProduit true b = ⟨400, none⟩ := by
  unfold postProduit
  rw [if_neg (by simp)]
  rcases h with h | h <;> rw [if_pos (by simp [h])]

/-- Overwriting the mutable fields does not touch the natural key. -/
theorem setMutable_url (r : StoredRecord) (d : Draft) :
    (setMutable r d).url = r.url := rfl

/-- Two successive mutable-field overwrites collapse to the last one. -/
theorem setMutable_setMutable (r : StoredRecord) (d e : Draft) :
    setMutable (setMutable r d) e = setMutable r e := rfl

/-- Folding mutable-field overwrites applies exactly the last draft. -/
theorem foldl_setMutable_last (ds : List Draft) :
    ∀ (r : StoredRecord) (d : Draft),
      ds.foldl setMutable (setMutable r d) = setMutable r (lastDraft d ds) := by
  induction ds with
  | nil => intro r d; rfl
  | cons x xs ih =>
    intro r d
    show xs.foldl setMutable (setMutable (setMutable r d) x) = _
    rw [setMutable_setMutable, ih]
    rfl

/-- Upserting a draft whose key already holds exactly one record overwrites
that record's mutable fields and changes nothing else under the key. -/
theorem recordsFor_upsert_hit (k : String) (store : List StoredRecord)
    (r : StoredRecord) (d : Draft) (hd : d.url = k)
    (h : recordsFor k store = [r]) :
    recordsFor k (upsertByUrl store d) = [setMutable r d] := by
  unfold recordsFor at h ⊢
  have hr : r ∈ store.filter (fun x => decide (x.url = k)) := by
    rw [h]
    exact List.mem_singleton_self r
  obtain ⟨hmem, hpk⟩ := List.mem_filter.mp hr
  have hrk : r.url = k := of_decide_eq_true hpk
  have hrd : r.url = d.url := by rw [hrk, hd]
  have hany : store.any (fun x => decide (x.url = d.url)) = true :=
    List.any_eq_true.mpr ⟨r, hmem, decide_eq_true hrd⟩
  unfold upsertByUrl
  rw [if_pos hany, List.filter_map]
  have hcong : store.filter ((fun x => decide (x.url = k)) ∘
      (fun x => if x.url = d.url then setMutable x d else x))
      = store.filter (fun x => decide (x.url = k)) := by
    apply List.filter_congr
    intro x _
    by_cases hx : x.url = d.url
    · simp [Function.comp, hx, setMutable]
    · simp [Function.comp, hx]
  rw [hcong, h, List.map_singleton, if_pos hrd]

/-- Upserting a draft whose key holds no record appends the fresh record
with the draft's id and createdAt. -/
theorem recordsFor_upsert_miss (k : String) (store : List StoredRecord)
    (d : Draft) (hd : d.url = k)
    (h : recordsFor k store = []) :
    recordsFor k (upsertByUrl store d) = [freshRecord d] := by
  unfold recordsFor at h ⊢
  have hnone : ¬ store.any (fun x => decide (x.url = d.url)) = true := by
    rw [Bool.not_eq_true, List.any_eq_false]
    intro x hx
    have := List.filter_eq_nil_iff.mp h x hx
    simpa [hd] using this
  unfold upsertByUrl
  rw [if_neg hnone, List.filter_append, h]
  simp [freshRecord, hd]

/-- Running a sequence of same-key upserts over a store holding exactly one
record for the key leaves exactly the folded mutable-field overwrite. -/
theorem recordsFor_foldl_upsert (k : String) (ds : List Draft) :
    ∀ (store : List StoredRecord) (r : StoredRecord),
      (∀ x ∈ ds, x.url = k) →
      recordsFor k store = [r] →
      recordsFor k (ds.foldl upsertByUrl store) = [ds.foldl setMutable r] := by
  induction ds with
  | nil => intro store r _ h; exact h
  | cons x xs ih =>
    intro store r hall h
    show recordsFor k (xs.foldl upsertByUrl (upsertByUrl store x)) = _
    have hx : x.url = k := hall x (List.mem_cons_self x xs)
    have h1 := recordsFor_upsert_hit k store r x hx h
    exact ih (upsertByUrl store x) (setMutable r x)
      (fun y hy => hall y (List.mem_cons_of_mem x hy)) h1

/-- Claim C2: upserting N ≥ 1 drafts carrying the same natural key, in
order, into a store holding nothing under that key leaves exactly one
record for the key; its id and createdAt are the first draft's (assigned at
the insert) and its mutable fields (title, price, image, sourcePage) are
the last draft's. -/
theorem upsert_natural_key_convergence (k : String) (store : List StoredRecord)
    (d : Draft) (ds : List Draft)
    (hd : d.url = k) (hds : ∀ x ∈ ds, x.url = k)
    (h0 : recordsFor k store = []) :
    recordsFor k ((d :: ds).foldl upsertByUrl store)
      = [{ url := d.url, id := d.id, title := (lastDraft d ds).title,
           price := (lastDraft d ds).price, image := (lastDraft d ds).image,
           sourcePage := (lastDraft d ds).sourcePage, createdAt := d.createdAt }] := by
  show recordsFor k (ds.foldl upsertByUrl (upsertByUrl store d)) = _
  have h1 := recordsFor_upsert_miss k store d hd h0
  have h2 := recordsFor_foldl_upsert k ds (upsertByUrl store d) (freshRecord d) hds h1
  rw [h2]
  have h3 : ds.foldl setMutable (freshRecord d)
      = setMutable (freshRecord d) (lastDraft d ds) :=
    foldl_setMutable_last ds (freshRecord d) d
  rw [h3]
  rfl

/-- Witness for the C2 theorem: the spec's scenario of two drafts with
natural key u1 and prices 100 then 150 — one record remains, with the first
draft's id and createdAt and the second draft's mutable fields. -/
theorem upsert_natural_key_convergence_w :
    ((⟨"u1", "id1", "t1", "100", "i1", "s1", 1⟩ : Draft).url = "u1"
      ∧ (∀ x ∈ [(⟨"u1", "id2", "t2", "150", "i2", "s2", 2⟩ : Draft)], x.url = "u1")
      ∧ recordsFor "u1" [] = [])
  ∧ recordsFor "u1"
      (([⟨"u1", "id1", "t1", "100", "i1", "s1", 1⟩,
         ⟨"u1", "id2", "t2", "150", "i2", "s2", 2⟩] : List Draft).foldl upsertByUrl [])
      = [{ url := "u1", id := "id1", title := "t2", price := "150",
           image := "i2", sourcePage := "s2", createdAt := 1 }] :=
  ⟨⟨rfl, by decide, rfl⟩,
   upsert_natural_key_convergence "u1" [] _ _ rfl (by decide) rfl⟩

/-- String concatenation cancels a common left factor. -/
theorem string_append_cancel {stem p q : String} (h : stem ++ p = stem ++ q) :
    p = q := by
  have hd := congrArg String.data h
  rw [String.data_append, String.data_append] at hd
  have hpq := List.append_cancel_left hd
  cases p
  cases q
  exact congrArg String.mk hpq

/-- Claim C3: every cache key of the list, detail, search and price-range
endpoints ends in a colon-separated plan-tier component, and for a fixed
logical query two distinct plan tiers always derive distinct keys, so a
payload cached for one tier is never looked up by another. -/
theorem cache_keys_partitioned_by_plan (p q id name : String) (mn mx : Int)
    (hpq : p ≠ q) :
    (cacheKeyList p ≠ cacheKeyList q
      ∧ cacheKeyDetail id p ≠ cacheKeyDetail id q
      ∧ cacheKeySearchApi name p ≠ cacheKeySearchApi name q
      ∧ cacheKeyLatest p ≠ cacheKeyLatest q
      ∧ cacheKeySearch name p ≠ cacheKeySearch name q
      ∧ cacheKeyPriceRange mn mx p ≠ cacheKeyPriceRange mn mx q)
  ∧ ((∃ stem, cacheKeyList p = stem ++ ":" ++ p)
      ∧ (∃ stem, cacheKeyDetail id p = stem ++ ":" ++ p)
      ∧ (∃ stem, cacheKeySearchApi name p = stem ++ ":" ++ p)
      ∧ (∃ stem, cacheKeyLatest p = stem ++ ":" ++ p)
      ∧ (∃ stem, cacheKeySearch name p = stem ++ ":" ++ p)
      ∧ (∃ stem, cacheKeyPriceRange mn mx p = stem ++ ":" ++ p)) := by
  refine ⟨⟨?_, ?_, ?_, ?_, ?_, ?_⟩,
    ⟨"produits:list", rfl⟩, ⟨"produit:" ++ id, rfl⟩,
    ⟨"produit:search:" ++ name, rfl⟩, ⟨"latest", rfl⟩,
    ⟨"search:" ++ name, rfl⟩,
    ⟨"price-range:" ++ toString mn ++ "-" ++ toString mx, rfl⟩⟩
  · intro he
    unfold cacheKeyList at he
    exact hpq (string_append_cancel he)
  · intro he
    unfold cacheKeyDetail at he
    exact hpq (string_append_cancel he)
  · intro he
    unfold cacheKeySearchApi at he
    exact hpq (string_append_cancel he)
  · intro he
    unfold cacheKeyLatest at he
    exact hpq (string_append_cancel he)
  · intro he
    unfold cacheKeySearch at he
    exact hpq (string_append_cancel he)
  · intro he
    unfold cacheKeyPriceRange at he
    exact hpq (string_append_cancel he)

/-- Witness for the C3 theorem at tiers BASIC and PRO with a concrete
query. -/
theorem cache_keys_partitioned_by_plan_w :
    ("BASIC" : String) ≠ "PRO"
  ∧ ((cacheKeyList "BASIC" ≠ cacheKeyList "PRO"
      ∧ cacheKeyDetail "42" "BASIC" ≠ cacheKeyDetail "42" "PRO"
      ∧ cacheKeySearchApi "hp" "BASIC" ≠ cacheKeySearchApi "hp" "PRO"
      ∧ cacheKeyLatest "BASIC" ≠ cacheKeyLatest "PRO"
      ∧ cacheKeySearch "hp" "BASIC" ≠ cacheKeySearch "hp" "PRO"
      ∧ cacheKeyPriceRange 0 100 "BASIC" ≠ cacheKeyPriceRange 0 100 "PRO")
    ∧ ((∃ stem, cacheKeyList "BASIC" = stem ++ ":" ++ "BASIC")
      ∧ (∃ stem, cacheKeyDetail "42" "BASIC" = stem ++ ":" ++ "BASIC")
      ∧ (∃ stem, cacheKeySearchApi "hp" "BASIC" = stem ++ ":" ++ "BASIC")
      ∧ (∃ stem, cacheKeyLatest "BASIC" = stem ++ ":" ++ "BASIC")
      ∧ (∃ stem, cacheKeySearch "hp" "BASIC" = stem ++ ":" ++ "BASIC")
      ∧ (∃ stem, cacheKeyPriceRange 0 100 "BASIC" = stem ++ ":" ++ "BASIC"))) :=
  ⟨by decide, cache_keys_partitioned_by_plan "BASIC" "PRO" "42" "hp" 0 100 (by decide)⟩

/-- Claim C4: the cache helper fails open and implements cache-aside. With
no backend handle (absent configuration, or any backend error, which nulls
the handle) it returns exactly the computed value and touches no cache; on a
truthy cached entry it returns the entry without computing; on a miss it
computes, stores the value under the key with the TTL, and returns it. -/
theorem cache_read_fail_open_and_aside (b b2 : CacheBackend)
    (key v fnVal : String) (ttl : Nat)
    (hhit : rget b key = some v) (hne : v ≠ "")
    (hmiss : rget b2 key = none) :
    cacheRead none key fnVal ttl = ⟨fnVal, none, true⟩
  ∧ (∀ r, cacheRead (onBackendError r) key fnVal ttl = ⟨fnVal, none, true⟩)
  ∧ cacheRead (some b) key fnVal ttl = ⟨v, some b, false⟩
  ∧ cacheRead (some b2) key fnVal ttl = ⟨fnVal, some (rsetex b2 key ttl fnVal), true⟩
  ∧ (rsetex b2 key ttl fnVal).entries.head? = some (key, fnVal, ttl)
  ∧ rget (rsetex b2 key ttl fnVal) key = some fnVal := by
  refine ⟨rfl, fun r => rfl, ?_, ?_, rfl, ?_⟩
  · simp only [cacheRead]
    rw [hhit]
    exact if_neg hne
  · simp only [cacheRead]
    rw [hmiss]
  · simp [rget, rsetex, List.find?]

/-- Witness for the C4 theorem on a one-entry backend and an empty
backend. -/
theorem cache_read_fail_open_and_aside_w :
    (rget ⟨[("k", "cached", 60)]⟩ "k" = some "cached" ∧ ("cached" : String) ≠ ""
      ∧ rget ⟨[]⟩ "k" = none)
  ∧ (cacheRead none "k" "fresh" 42 = ⟨"fresh", none, true⟩
    ∧ (∀ r, cacheRead (onBackendError r) "k" "fresh" 42 = ⟨"fresh", none, true⟩)
    ∧ cacheRead (some ⟨[("k", "cached", 60)]⟩) "k" "fresh" 42
        = ⟨"cached", some ⟨[("k", "cached", 60)]⟩, false⟩
    ∧ cacheRead (some ⟨[]⟩) "k" "fresh" 42
        = ⟨"fresh", some (rsetex ⟨[]⟩ "k" 42 "fresh"), true⟩
    ∧ (rsetex ⟨[]⟩ "k" 42 "fresh").entries.head? = some ("k", "fresh", 42)
    ∧ rget (rsetex ⟨[]⟩ "k" 42 "fresh") "k" = some "fresh") :=
  ⟨⟨rfl, by decide, rfl⟩,
   cache_read_fail_open_and_aside ⟨[("k", "cached", 60)]⟩ ⟨[]⟩ "k" "cached" "fresh" 42
     rfl (by decide) rfl⟩

/-- Claim C10: with no Redis handle the quota gate admits every recognized
credential without reading, creating or incrementing any counter, and no
request is ever answered with the quota-exceeded outcome; missing or empty
credentials still get 401 and unrecognized ones 403, before any quota
logic. -/
theorem quota_gate_without_redis (key plan : String)
    (hk : planMapping key = some plan) :
    quotaMiddleware none (some key) = (.admitted plan, none)
  ∧ quotaMiddleware none none = (.unauthorized, none)
  ∧ (∀ k2, k2 ≠ "" → planMapping k2 = none →
      quotaMiddleware none (some k2) = (.invalidKey, none))
  ∧ (∀ h2 p2, (quotaMiddleware none h2).1 ≠ .quotaExceeded p2) := by
  have hne : key ≠ "" := by
    intro he
    rw [he] at hk
    simp [planMapping] at hk
  refine ⟨?_, rfl, ?_, ?_⟩
  · simp only [quotaMiddleware]
    rw [if_neg hne, hk]
  · intro k2 hne2 hnone
    simp only [quotaMiddleware]
    rw [if_neg hne2, hnone]
  · intro h2 p2
    cases h2 with
    | none => simp [quotaMiddleware]
    | some k2 =>
      by_cases hk2 : k2 = ""
      · simp [quotaMiddleware, hk2]
      · cases hm : planMapping k2 with
        | none => simp [quotaMiddleware, hk2, hm]
        | some p3 => simp [quotaMiddleware, hk2, hm]

/-- Witness for the C10 theorem at the recognized credential key_pro. -/
theorem quota_gate_without_redis_w :
    planMapping "key_pro" = some "PRO"
  ∧ (quotaMiddleware none (some "key_pro") = (.admitted "PRO", none)
    ∧ quotaMiddleware none none = (.unauthorized, none)
    ∧ (∀ k2, k2 ≠ "" → planMapping k2 = none →
        quotaMiddleware none (some k2) = (.invalidKey, none))
    ∧ (∀ h2 p2, (quotaMiddleware none h2).1 ≠ .quotaExceeded p2)) :=
  ⟨rfl, quota_gate_without_redis "key_pro" "PRO" rfl⟩

/-- Witness for the amended C9 theorem on a body with no title. -/
theorem post_produit_validates_id_and_title_w :
    (falsyField (⟨some "x", none, none, none, none, none⟩ : AdminBody).id = true ∨
      falsyField (⟨some "x", none, none, none, none, none⟩ : AdminBody).title = true)
  ∧ postProduit true ⟨some "x", none, none, none, none, none⟩ = ⟨400, none⟩ :=
  ⟨Or.inr rfl, post_produit_validates_id_and_title _ (Or.inr rfl)⟩
